import Mathlib

/-! Formal model of the CFMS-ChatBot expression-generation and safe-execution
pipeline, shallowly embedding src/src/execution.py, src/src/utils.py and the
result-formatting part of src/main.py, together with theorems settling the
frozen claims about that code.  Python floats are modelled as rationals and
Python dict environments as insertion-ordered association lists. -/

namespace CFMS

/-- Cell of a pandas DataFrame as the repository uses one: the absent
object None, the float NaN (a distinct kind of missing value: pandas
treats both as null, but Python code testing `is not None` sees NaN as a
value), an integer, a float (modelled as a rational), or a string. -/
inductive CellVal : Type
| null : CellVal
| nanC : CellVal
| intC (n : Int) : CellVal
| floatC (q : Rat) : CellVal
| strC (s : String) : CellVal
deriving DecidableEq

/-- A pandas DataFrame: a list of rows over a list of column names. -/
structure Table : Type where
  rows : List (List CellVal)
  cols : List String
deriving DecidableEq

/-- Python runtime values that occur in the environment of safe_exec
(src/src/execution.py): DataFrames, Series, matplotlib figures, modules,
functions, and plain scalars. -/
inductive PyVal : Type
| dataframe (t : Table) : PyVal
| seriesV (nm : String) (entries : List (CellVal × CellVal)) : PyVal
| figure : PyVal
| pymodule (nm : String) : PyVal
| pyfunc (nm : String) : PyVal
| intV (n : Int) : PyVal
| floatV (q : Rat) : PyVal
| nanV : PyVal
| strV (s : String) : PyVal
| noneV : PyVal
deriving DecidableEq

/-- The dictionary safe_exec returns: result, error and captured stdout
(src/src/execution.py line 91).  The stdout capture of
contextlib.redirect_stdout is modelled only as the literal strings the
SQL branch puts there; printing during evaluation is not modelled. -/
structure ExecResult : Type where
  result : Option PyVal
  error : Option String
  stdout : String
deriving DecidableEq

/-- Outcome of the inner `eval(expr, \x7b\x7d, local_env)` attempt
(src/src/execution.py line 67): a value, a SyntaxError, or another
exception carrying a traceback string.  The semantics of arbitrary Python
text is external to the repository, so theorems quantify over it. -/
inductive TryOutcome : Type
| ok (v : PyVal) : TryOutcome
| synErr : TryOutcome
| runErr (trace : String) : TryOutcome
deriving DecidableEq

/-- Outcome of the fallback `exec(expr, \x7b\x7d, local_env)` attempt
(src/src/execution.py line 70).  On success it yields the final state of
local_env: a Python dict, i.e. an insertion-ordered association list in
which names introduced by the executed statements follow the pre-seeded
bindings. -/
inductive StmtOutcome : Type
| ok (env : List (String × PyVal)) : StmtOutcome
| synErr : StmtOutcome
| runErr (trace : String) : StmtOutcome
deriving DecidableEq

/-- Python whitespace recognised by str.strip (ASCII fragment). -/
def isPySpace (c : Char) : Bool :=
  decide (c.toNat = 32 ∨ (9 ≤ c.toNat ∧ c.toNat ≤ 13))

/-- Python str.strip on a character list. -/
def pyStripL (cs : List Char) : List Char :=
  ((cs.dropWhile isPySpace).reverse.dropWhile isPySpace).reverse

/-- Python str.lower on one character (ASCII fragment). -/
def charLower (c : Char) : Char :=
  if 65 ≤ c.toNat ∧ c.toNat ≤ 90 then Char.ofNat (c.toNat + 32) else c

/-- The local_env dict built at src/src/execution.py lines 50-57, in its
insertion order: the dataset as `df`, the modules pandas, numpy,
matplotlib.pyplot and re, and the fuzzy_filter helper. -/
def initialEnv (df : PyVal) : List (String × PyVal) :=
  [("df", df), ("pd", .pymodule "pandas"), ("np", .pymodule "numpy"),
   ("plt", .pymodule "matplotlib.pyplot"), ("re", .pymodule "re"),
   ("fuzzy_filter", .pyfunc "fuzzy_filter")]

/-- The names bound in local_env. -/
def localEnvKeys : List String :=
  (initialEnv .noneV).map Prod.fst

/-- The isinstance (pd.DataFrame, pd.Series, plt.Figure) test of
src/src/execution.py line 74. -/
def isDisplayValue : PyVal → Bool
| .dataframe _ => true
| .seriesV _ _ => true
| .figure => true
| _ => false

/-- The `for k, v in reversed(list(local_env.items()))` scan of
src/src/execution.py lines 73-76: last inserted binding first, first value
passing the isinstance test wins. -/
def findLastObject (env : List (String × PyVal)) : Option PyVal :=
  (env.reverse.find? (fun kv => isDisplayValue kv.2)).map Prod.snd

/-- The fixed marker of src/src/execution.py line 78. -/
def markerString : String := "Code executed successfully (no return value)"

/-- Computation Mode of safe_exec (src/src/execution.py lines 49-91):
try eval; on any exception fall back to exec and scan local_env; if exec
raises SyntaxError return the raw text as the result; any other exception
becomes the error string.  The eval/exec outcomes parameterise the Python
semantics of the expression text. -/
def pythonMode (expr : String) (evalO : TryOutcome) (stmtO : StmtOutcome) :
    ExecResult :=
  match evalO with
  | .ok v => ⟨some v, none, ""⟩
  | _ =>
    match stmtO with
    | .ok env =>
      match findLastObject env with
      | some v => ⟨some v, none, ""⟩
      | none => ⟨some (.strV markerString), none, ""⟩
    | .synErr => ⟨some (.strV expr), none, ""⟩
    | .runErr t => ⟨none, some t, ""⟩

/-- Lifecycle events of the DuckDB connection in the SQL branch of
safe_exec (src/src/execution.py lines 31-47). -/
inductive ConnEvent : Type
| connect : ConnEvent
| register : ConnEvent
| execute : ConnEvent
| close : ConnEvent
deriving DecidableEq

/-- Query Mode of safe_exec (src/src/execution.py lines 22-47), with the
DuckDB engine's run of the query abstracted as an Except value.  The second
component records, in order, which connection-lifecycle calls were made:
per the source, `con.close()` is reached only when `con.execute(...)` did
not raise, because the except clause returns without closing. -/
def sqlMode (hasDuckdb : Bool) (query : String)
    (engineRun : Except String Table) : ExecResult × List ConnEvent :=
  if hasDuckdb = false then
    (⟨none, some "SQL requested but DuckDB is not installed/available.", ""⟩, [])
  else
    match engineRun with
    | .ok t =>
        (⟨some (.dataframe t), none, "Executed SQL: " ++ query⟩,
         [.connect, .register, .execute, .close])
    | .error e =>
        (⟨none, some ("SQL Execution Error: " ++ e), ""⟩,
         [.connect, .register, .execute])

/-- The dispatch test of src/src/execution.py line 23:
expr.strip().lower().startswith("sql:"). -/
def isSqlQuery (expr : String) : Bool :=
  [ 's', 'q', 'l', ':' ].isPrefixOf ((pyStripL expr.toList).map charLower)

/-- The query text extracted at src/src/execution.py line 32:
expr.strip()[4:].strip(). -/
def sqlBody (expr : String) : String :=
  String.mk (pyStripL ((pyStripL expr.toList).drop 4))

/-- A representative fragment of CPython's builtins.  Because safe_exec
passes an empty dict as globals to eval/exec, the interpreter injects
the real builtins module into it, so all of these names resolve inside
evaluated expressions. -/
def builtinNames : List String :=
  ["abs", "aiter", "all", "anext", "any", "ascii", "bin", "bool",
   "breakpoint", "bytearray", "bytes", "callable", "chr", "classmethod",
   "compile", "complex", "copyright", "credits", "delattr", "dict", "dir",
   "divmod", "enumerate", "eval", "exec", "exit", "filter", "float",
   "format", "frozenset", "getattr", "globals", "hasattr", "hash", "help",
   "hex", "id", "input", "int", "isinstance", "issubclass", "iter", "len",
   "license", "list", "locals", "map", "max", "memoryview", "min", "next",
   "object", "oct", "open", "ord", "pow", "print", "property", "quit",
   "range", "repr", "reversed", "round", "set", "setattr", "slice",
   "sorted", "staticmethod", "str", "sum", "super", "tuple", "type",
   "vars", "zip", "__import__", "__build_class__", "__name__", "__doc__",
   "ArithmeticError", "AssertionError", "AttributeError", "BaseException",
   "Exception", "ImportError", "IndexError", "KeyError", "NameError",
   "OSError", "RuntimeError", "StopIteration", "SyntaxError", "TypeError",
   "ValueError", "ZeroDivisionError", "True", "False", "None",
   "NotImplemented", "Ellipsis"]

/-- Name resolution as seen by a bare-name expression evaluated by
safe_exec: the locals dict first (lines 50-57), then the builtins injected
into the empty globals dict. -/
def resolveName (df : PyVal) (s : String) : Option PyVal :=
  match (initialEnv df).lookup s with
  | some v => some v
  | none =>
      if builtinNames.contains s then some (.pyfunc s) else none

/-- Traceback text produced when a name is unbound. -/
def nameErrTrace (s : String) : String :=
  "NameError: name " ++ s ++ " is not defined"

/-- Outcome of eval on the bare-name expression `s`: the bound value, or a
NameError captured as a runtime failure. -/
def nameRefEval (df : PyVal) (s : String) : TryOutcome :=
  match resolveName df s with
  | some v => .ok v
  | none => .runErr (nameErrTrace s)

/-- Outcome of exec on the bare-name statement `s`: evaluates and discards
the value leaving the environment unchanged, or raises the same NameError. -/
def nameRefStmt (df : PyVal) (s : String) : StmtOutcome :=
  match resolveName df s with
  | some _ => .ok (initialEnv df)
  | none => .runErr (nameErrTrace s)

/-- Modelled from the claim's words (claim C2), for comparison with the
source: a scan restricted to the bindings introduced during execution,
most recent first, falling back to the marker string. -/
def scanIntroducedOnly (intro : List (String × PyVal)) : PyVal :=
  match (intro.reverse.find? (fun kv => isDisplayValue kv.2)).map Prod.snd with
  | some v => v
  | none => .strV markerString

/-- Column extraction df[c] (the rows' cells at the column's index). -/
def columnCells (t : Table) (c : String) : List CellVal :=
  match t.cols.findIdx? (fun x => x == c) with
  | none => []
  | some i => t.rows.map (fun r => r.getD i .null)

/-- Numeric view of a cell, as pandas sum consumes it (nulls skipped). -/
def cellNum : CellVal → Option Rat
| .intC n => some (n : Rat)
| .floatC q => some q
| _ => none

/-- pandas df[c].sum() on a numeric column: sum of the non-null numeric
cells, 0 for an empty column (skipna default). -/
def columnSum (t : Table) (c : String) : Rat :=
  (columnCells t c).foldr
    (fun cv acc =>
      match cellNum cv with
      | some q => acc + q
      | none => acc) 0

/-- Characters kept unchanged by normalize_col's character class
[0-9a-z_] (src/src/utils.py line 14). -/
def isAllowedChar (c : Char) : Bool :=
  decide ((48 ≤ c.toNat ∧ c.toNat ≤ 57) ∨ (97 ≤ c.toNat ∧ c.toNat ≤ 122) ∨
    c.toNat = 95)

/-- One step of re.sub applied to a single character: characters outside
[0-9a-z_] become an underscore. -/
def subChar (c : Char) : Char :=
  if isAllowedChar c then c else Char.ofNat 95

/-- normalize_col of src/src/utils.py lines 13-14:
re.sub applied to c.strip().lower(). -/
def normalize_col (s : String) : String :=
  String.mk (((pyStripL s.toList).map charLower).map subChar)

/-- Length of the common run of equal characters at the heads of two
lists (the size of a matching block anchored at fixed positions). -/
def runLen : List Char → List Char → Nat
| x :: xs, y :: ys => if x = y then runLen xs ys + 1 else 0
| _, _ => 0

/-- difflib SequenceMatcher.find_longest_match on junk-free inputs
(autojunk never fires on the short strings the repository compares): the
longest common substring as (start in a, start in b, size), ties resolved
toward the smallest start in a, then in b — the pair order in which the
source's scan first reaches the winning block. -/
def findLongestMatch (a b : List Char) : Nat × Nat × Nat :=
  ((List.range a.length).flatMap
    (fun i => (List.range b.length).map (fun j => (i, j)))).foldl
    (fun best ij =>
      let k := runLen (a.drop ij.1) (b.drop ij.2)
      if best.2.2 < k then (ij.1, ij.2, k) else best)
    (0, 0, 0)

/-- Total size of difflib's matching blocks, by the recursive
decomposition get_matching_blocks performs around each longest match.
Fuel bounds the recursion depth; combined input length suffices. -/
def matchTotalF : Nat → List Char → List Char → Nat
| 0, _, _ => 0
| fuel + 1, a, b =>
  let ijk := findLongestMatch a b
  if ijk.2.2 = 0 then 0
  else
    matchTotalF fuel (a.take ijk.1) (b.take ijk.2.1) + ijk.2.2 +
      matchTotalF fuel (a.drop (ijk.1 + ijk.2.2)) (b.drop (ijk.2.1 + ijk.2.2))

/-- Total matching-block size between two character lists. -/
def matchTotal (a b : List Char) : Nat :=
  matchTotalF (a.length + b.length + 1) a b

/-- A similarity score kept in exact form: the pair (M, T) standing for
SequenceMatcher.ratio = 2*M/T, with the convention ratio = 1 when T = 0
(difflib's _calculate_ratio on two empty sequences).  Scores are compared
by cross-multiplication, which is the exact rational order CPython's
float comparison realises on these magnitudes. -/
def scoreNum (s : Nat × Nat) : Nat :=
  if s.2 = 0 then 1 else 2 * s.1

/-- Denominator of a score in exact form. -/
def scoreDen (s : Nat × Nat) : Nat :=
  if s.2 = 0 then 1 else s.2

/-- Strict ratio order by cross-multiplication. -/
def scoreLt (a b : Nat × Nat) : Prop :=
  scoreNum a * scoreDen b < scoreNum b * scoreDen a

instance (a b : Nat × Nat) : Decidable (scoreLt a b) := by
  unfold scoreLt
  infer_instance

/-- The candidates difflib.get_close_matches retains: each possibility
with its score, kept when the ratio reaches the 0.6 cutoff — written
3*T ≤ 5*(2*M) in exact form (the real_quick_ratio/quick_ratio pre-tests
are upper bounds of ratio, so the conjunction reduces to the final
test). -/
def closeScored (word : String) (poss : List String) :
    List ((Nat × Nat) × String) :=
  poss.filterMap (fun x =>
    let sc := (matchTotal x.toList word.toList, x.length + word.length)
    if 3 * scoreDen sc ≤ 5 * scoreNum sc then some (sc, x) else none)

/-- heapq.nlargest(1, ...) over (score, string) pairs: the lexicographic
maximum — greatest ratio, ties resolved toward the greater string. -/
def pickBest : List ((Nat × Nat) × String) → Option ((Nat × Nat) × String)
| [] => none
| p :: rest =>
  match pickBest rest with
  | none => some p
  | some q =>
    if scoreLt p.1 q.1 ∨
        (scoreNum p.1 * scoreDen q.1 = scoreNum q.1 * scoreDen p.1 ∧ p.2 < q.2)
    then some q
    else some p

/-- difflib.get_close_matches(value, possibilities, n=1, cutoff=0.6),
returning the single best match when one clears the cutoff. -/
def getCloseMatch (word : String) (poss : List String) : Option String :=
  (pickBest (closeScored word poss)).map Prod.snd

/-- The filter pattern fuzzy_filter ends up using (the if/else of
src/src/utils.py lines 27-30): the close match when one exists, the raw
value otherwise. -/
def fuzzyPattern (vals : List String) (value : String) : String :=
  match getCloseMatch value vals with
  | some m => m
  | none => value

/-- dropna().astype(str): null and NaN cells are dropped, strings kept,
numbers stringified.  Non-integer floats are given a placeholder
rendering; the claims only exercise string columns. -/
def cellStrOpt : CellVal → Option String
| .null => none
| .nanC => none
| .strC s => some s
| .intC n => some (toString n)
| .floatC q => some (toString q.num ++ "/" ++ toString q.den)

/-- pandas Series.unique: first-occurrence-order deduplication. -/
def dedupGo : List String → List String → List String
| _, [] => []
| seen, x :: xs =>
  if seen.contains x then dedupGo seen xs else x :: dedupGo (x :: seen) xs

/-- Substring search on character lists (the second list somewhere inside
the first). -/
def hasSubList : List Char → List Char → Bool
| hay, pat =>
  pat.isPrefixOf hay ||
    match hay with
    | [] => false
    | _ :: rest => hasSubList rest pat

/-- Case-insensitive literal substring containment — the reading the
claim's words ("contains that match as a case-insensitive substring")
give of the filter.  The program's pandas call defaults to regex=True,
modelled by reSearch below; the two agree exactly on patterns free of
regex syntax (theorem reSearch_lit). -/
def containsCI (hay pat : String) : Bool :=
  hasSubList (hay.toList.map charLower) (pat.toList.map charLower)

/-- Token of the regex fragment the repository's patterns live in: a
literal character or the dot wildcard. -/
inductive ReTok : Type
| lit (c : Char) : ReTok
| anyc : ReTok
deriving DecidableEq

/-- The re metacharacters other than the dot. -/
def reMeta : List Char :=
  [Char.ofNat 92, Char.ofNat 94, Char.ofNat 36, Char.ofNat 42, Char.ofNat 43,
   Char.ofNat 63, Char.ofNat 40, Char.ofNat 41, Char.ofNat 91, Char.ofNat 93,
   Char.ofNat 123, Char.ofNat 125, Char.ofNat 124]

/-- Compilation of a pattern in the modelled regex fragment: the dot
becomes the wildcard, plain characters become literals, and any other
metacharacter falls outside the fragment and fails the compile.  For a
pattern like "(" that failure is exactly Python's re.error; quantified
patterns (e.g. "Zz*z") are genuine regexes the fragment does not cover —
no theorem below evaluates the model on one. -/
def reCompile : List Char → Option (List ReTok)
| [] => some []
| c :: rest =>
  if c == Char.ofNat 46 then (reCompile rest).map (fun ts => .anyc :: ts)
  else if reMeta.contains c then none
  else (reCompile rest).map (fun ts => .lit c :: ts)

/-- The compiled tokens match a prefix of the text; literals compare
case-insensitively (re.IGNORECASE, from case=False). -/
def reTokMatchAt : List ReTok → List Char → Bool
| [], _ => true
| _ :: _, [] => false
| t :: ts, c :: cs =>
  (match t with
   | .anyc => true
   | .lit l => charLower l == charLower c) && reTokMatchAt ts cs

/-- re.search of the compiled pattern: a match starting at some
position of the text. -/
def reSearch : List ReTok → List Char → Bool
| toks, hay =>
  reTokMatchAt toks hay ||
    match hay with
    | [] => false
    | _ :: rest => reSearch toks rest

/-- The row mask df[col].fillna('').str.contains(pat, case=False,
na=False) applied to one cell, with the pattern already compiled:
null/NaN become the empty string first; non-string cells make the .str
accessor yield null, which na=False turns into False. -/
def cellMatchesRe (toks : List ReTok) : CellVal → Bool
| .null => reSearch toks []
| .nanC => reSearch toks []
| .strC s => reSearch toks s.toList
| _ => false

/-- fuzzy_filter of src/src/utils.py lines 24-30: distinct non-null
stringified column values, the single difflib close match at cutoff 0.6,
and the str.contains filter on the matched value (falling back to the
raw value when no candidate clears the cutoff), whose pandas default
treats the pattern as a regex.  The Except models the exceptions the
function can raise: a missing column (KeyError from df[col]) and a
pattern outside the modelled regex fragment (re.error for invalid
syntax such as an unmatched parenthesis). -/
def fuzzy_filter (t : Table) (col : String) (value : String) :
    Except Unit Table :=
  match t.cols.findIdx? (fun x => x == col) with
  | none => .error ()
  | some i =>
    match reCompile (fuzzyPattern
        (dedupGo [] ((t.rows.map (fun r => r.getD i .null)).filterMap cellStrOpt))
        value).toList with
    | none => .error ()
    | some toks =>
      .ok ⟨t.rows.filter (fun r => cellMatchesRe toks (r.getD i .null)), t.cols⟩

/-- Modelled from the claim's words (claim C8), for comparison with the
source: distinct non-null string values, single closest match at
threshold 0.6, then rows whose present string cell contains the chosen
pattern case-insensitively as a literal substring — absent/null cells
never match. -/
def fuzzy_filter_claim (t : Table) (col : String) (value : String) : Table :=
  match t.cols.findIdx? (fun x => x == col) with
  | none => ⟨[], t.cols⟩
  | some i =>
    ⟨t.rows.filter (fun r =>
        match r.getD i .null with
        | .strC s =>
          containsCI s
            (fuzzyPattern
              (dedupGo [] ((t.rows.map (fun r => r.getD i .null)).filterMap cellStrOpt))
              value)
        | _ => false),
      t.cols⟩

/-- Values of the oracle's reply universe consumed by
extract_json_from_response (src/src/utils.py lines 36-89): JSON-like data
as Python represents it (None, bools, numbers, strings, lists, dicts). -/
inductive JVal : Type
| jnull : JVal
| jbool (b : Bool) : JVal
| jnum (q : Rat) : JVal
| jstr (s : String) : JVal
| jarr (xs : List JVal) : JVal
| jobj (kvs : List (String × JVal)) : JVal

/-- Named characters, kept out of literals for hygiene. -/
def squoteC : Char := Char.ofNat 39

def dquoteC : Char := Char.ofNat 34

def bslashC : Char := Char.ofNat 92

def btickC : Char := Char.ofNat 96

def lbraceC : Char := Char.ofNat 123

def rbraceC : Char := Char.ofNat 125

def squoteS : String := String.mk [squoteC]

/-- Python repr of a reply value; string escaping inside the quotes is
not reproduced.  Reached only for replies that are neither mappings nor
strings, which no claim exercises with nested content. -/
def pyReprV : JVal → String
| .jnull => "None"
| .jbool b => if b then "True" else "False"
| .jnum q =>
    if q.den = 1 then toString q.num
    else toString q.num ++ "/" ++ toString q.den
| .jstr s => squoteS ++ s ++ squoteS
| .jarr xs =>
    "[" ++ String.intercalate ", " (xs.attach.map (fun x => pyReprV x.1)) ++ "]"
| .jobj kvs =>
    String.mk [lbraceC] ++
      String.intercalate ", "
        (kvs.attach.map
          (fun kv => squoteS ++ kv.1.1 ++ squoteS ++ ": " ++ pyReprV kv.1.2)) ++
      String.mk [rbraceC]
decreasing_by
· have h1 := List.sizeOf_lt_of_mem x.2
  have h3 : sizeOf (JVal.jarr xs) = 1 + sizeOf xs := by simp
  omega
· have h1 := List.sizeOf_lt_of_mem kv.2
  have h2 : sizeOf kv.1.2 < sizeOf kv.1 := by
    rcases kv with ⟨⟨a, b⟩, hm⟩
    simp
  have h3 : sizeOf (JVal.jobj kvs) = 1 + sizeOf kvs := by simp
  omega

/-- Python str() of a reply value: a string is itself, anything else its
repr. -/
def pyStr (v : JVal) : String :=
  match v with
  | .jstr s => s
  | v => pyReprV v

/-- Python truthiness of a reply value. -/
def jTruthy : JVal → Bool
| .jnull => false
| .jbool b => b
| .jnum q => decide (q ≠ 0)
| .jstr s => !s.isEmpty
| .jarr xs => !xs.isEmpty
| .jobj kvs => !kvs.isEmpty

/-- Python `v[0]`: first element of a list, first character of a string;
anything else raises (IndexError/TypeError), modelled as Except.error. -/
def pyIndex0 : JVal → Except Unit JVal
| .jarr (x :: _) => .ok x
| .jarr [] => .error ()
| .jstr s =>
  match s.toList with
  | c :: _ => .ok (.jstr (String.mk [c]))
  | [] => .error ()
| _ => .error ()

/-- Python `v.get(k, dflt)`: defined on dicts only; on anything else the
attribute lookup raises, modelled as Except.error. -/
def pyGet (v : JVal) (k : String) (dflt : JVal) : Except Unit JVal :=
  match v with
  | .jobj kvs => .ok ((kvs.lookup k).getD dflt)
  | _ => .error ()

/-- The Gemini-reply navigation of src/src/utils.py lines 46-68, with
every Python exception surfaced as Except.error: for a dict reply,
c = resp.get("candidates", [\x7b\x7d])[0].get("content", \x7b\x7d), then the
list-shaped (Format A) or dict-shaped (Format B) descent to a text field,
the text staying "" when c is neither; for a non-dict reply, str(resp). -/
def textOfE (resp : JVal) : Except Unit JVal :=
  match resp with
  | .jobj kvs =>
    match pyIndex0 ((kvs.lookup "candidates").getD (.jarr [.jobj []])) with
    | .error e => .error e
    | .ok first =>
      match pyGet first "content" (.jobj []) with
      | .error e => .error e
      | .ok c =>
        match c with
        | .jarr cs =>
          match pyIndex0 (.jarr cs) with
          | .error e => .error e
          | .ok c0 =>
            match pyGet c0 "parts" (.jarr []) with
            | .error e => .error e
            | .ok parts =>
              if jTruthy parts then
                match pyIndex0 parts with
                | .error e => .error e
                | .ok p0 => pyGet p0 "text" (.jstr "")
              else
                pyGet c0 "text" (.jstr "")
        | .jobj ckvs =>
          match (ckvs.lookup "parts").getD (.jarr []) with
          | .jarr (p :: _) => pyGet p "text" (.jstr "")
          | _ => .ok ((ckvs.lookup "text").getD (.jstr ""))
        | _ => .ok (.jstr "")
  | v => .ok (.jstr (pyStr v))

/-- text.strip() on a non-string raises AttributeError; the value must be
a string to continue. -/
def asStrE : JVal → Except Unit String
| .jstr s => .ok s
| _ => .error ()

/-- ASCII letter test, for the [a-zA-Z]* of the opening-fence pattern. -/
def isAsciiAlpha (c : Char) : Bool :=
  decide ((65 ≤ c.toNat ∧ c.toNat ≤ 90) ∨ (97 ≤ c.toNat ∧ c.toNat ≤ 122))

/-- The two re.sub calls of src/src/utils.py lines 71-72: strip, remove a
leading fence (three backticks, letters, whitespace), strip again, remove
a trailing fence (whitespace, three backticks). -/
def stripFences (s : String) : String :=
  let t1 := pyStripL s.toList
  let t2 :=
    if [btickC, btickC, btickC].isPrefixOf t1 then
      ((t1.drop 3).dropWhile isAsciiAlpha).dropWhile isPySpace
    else t1
  let t3 := pyStripL t2
  let t4 :=
    if [btickC, btickC, btickC].isPrefixOf t3.reverse then
      ((t3.reverse.drop 3).dropWhile isPySpace).reverse
    else t3
  String.mk t4

/-- The re.search(r"\x7b.*\x7d", text, re.DOTALL) span of
src/src/utils.py line 75: from the first opening brace to the last
closing brace, provided the first strictly precedes the last. -/
def braceSpan (s : String) : Option String :=
  let cs := s.toList
  match cs.findIdx? (fun c => c == lbraceC),
      (cs.reverse.findIdx? (fun c => c == rbraceC)).map
        (fun k => cs.length - 1 - k) with
  | some i, some j =>
    if i < j then some (String.mk ((cs.drop i).take (j - i + 1))) else none
  | _, _ => none

/-- The .replace of src/src/utils.py line 79: each backslash-quote pair
becomes a plain single quote, left to right. -/
def replaceBSQ : List Char → List Char
| c1 :: c2 :: rest =>
  if c1 == bslashC && c2 == squoteC then squoteC :: replaceBSQ rest
  else c1 :: replaceBSQ (c2 :: rest)
| l => l

/-- The stringified-dict fix of src/src/utils.py lines 38-42: a string
reply that (stripped) opens with brace-quote and closes with a brace is
fed to ast.literal_eval; failure keeps the original reply. -/
def prefixFix (lp : String → Option JVal) (resp : JVal) : JVal :=
  match resp with
  | .jstr s =>
    let t := pyStripL s.toList
    if [lbraceC, squoteC].isPrefixOf t && [rbraceC].isPrefixOf t.reverse then
      match lp s with
      | some v => v
      | none => .jstr s
    else .jstr s
  | v => v

/-- The body of extract_json_from_response under its outer try
(src/src/utils.py lines 44-86), with jp and lp the strict (json.loads)
and permissive (ast.literal_eval) parsers: navigation exceptions
propagate, a missing span returns None, a span is parsed strictly then
permissively, and a second parse failure raises out to the outer
handler. -/
def extractBodyE (jp lp : String → Option JVal) (resp : JVal) :
    Except Unit (Option JVal) :=
  match textOfE (prefixFix lp resp) with
  | .error e => .error e
  | .ok tv =>
    match asStrE tv with
    | .error e => .error e
    | .ok t =>
      match braceSpan (stripFences t) with
      | none => .ok none
      | some sp =>
        let s2 := String.mk (replaceBSQ sp.toList)
        match jp s2 with
        | some v => .ok (some v)
        | none =>
          match lp s2 with
          | some v => .ok (some v)
          | none => .error ()

/-- extract_json_from_response (src/src/utils.py lines 36-89): the body
with every exception degraded to None by the outer except. -/
def extract_json_from_response (jp lp : String → Option JVal) (resp : JVal) :
    Option JVal :=
  match extractBodyE jp lp resp with
  | .ok v => v
  | .error _ => none

/-- The brace span the fallback chain reaches for a reply, as an Option
pipeline: none when the stringified-dict fix, navigation, fence
stripping and span search produce no parseable span. -/
def spanOfReply (lp : String → Option JVal) (resp : JVal) : Option String :=
  match textOfE (prefixFix lp resp) with
  | .error _ => none
  | .ok tv =>
    match asStrE tv with
    | .error _ => none
    | .ok t =>
      (braceSpan (stripFences t)).map (fun sp => String.mk (replaceBSQ sp.toList))

/-- Decimal digit test. -/
def isDigitC (c : Char) : Bool :=
  decide (48 ≤ c.toNat ∧ c.toNat ≤ 57)

/-- Value of a digit run. -/
def digitsToNat (ds : List Char) : Nat :=
  ds.foldl (fun a c => a * 10 + (c.toNat - 48)) 0

/-- Escape sequences accepted inside quoted literals (the fragment the
repository's replies use). -/
def unescapeChar (c : Char) : Option Char :=
  if c == dquoteC then some dquoteC
  else if c == squoteC then some squoteC
  else if c == bslashC then some bslashC
  else if c == Char.ofNat 47 then some (Char.ofNat 47)
  else if c == 'n' then some (Char.ofNat 10)
  else if c == 't' then some (Char.ofNat 9)
  else if c == 'r' then some (Char.ofNat 13)
  else if c == 'b' then some (Char.ofNat 8)
  else if c == 'f' then some (Char.ofNat 12)
  else none

/-- Quoted-string scanner: characters until the closing quote, with the
escape table above. -/
def parseQuotedGo (qc : Char) : Nat → List Char → List Char →
    Option (String × List Char)
| 0, _, _ => none
| _ + 1, _, [] => none
| fuel + 1, acc, c :: rest =>
  if c == qc then some (String.mk acc.reverse, rest)
  else if c == bslashC then
    match rest with
    | [] => none
    | e :: rest2 =>
      match unescapeChar e with
      | some d => parseQuotedGo qc fuel (d :: acc) rest2
      | none => none
  else parseQuotedGo qc fuel (c :: acc) rest

/-- Number literal: optional minus, digits, optional fraction (the
fragment the repository's replies use; exponents unsupported). -/
def parseNumber (cs : List Char) : Option (JVal × List Char) :=
  let neg := [Char.ofNat 45].isPrefixOf cs
  let cs1 := if neg then cs.drop 1 else cs
  let ds := cs1.takeWhile isDigitC
  if ds.isEmpty then none
  else
    let cs2 := cs1.drop ds.length
    let ipn : Int := (digitsToNat ds : Nat)
    match cs2 with
    | c :: cs3 =>
      if c == Char.ofNat 46 then
        let fs := cs3.takeWhile isDigitC
        if fs.isEmpty then none
        else
          let v : Int := ipn * (10 : Int) ^ fs.length + ((digitsToNat fs : Nat) : Int)
          some (.jnum (mkRat (if neg then -v else v) (10 ^ fs.length)),
            cs3.drop fs.length)
      else some (.jnum (mkRat (if neg then -ipn else ipn) 1), cs2)
    | [] => some (.jnum (mkRat (if neg then -ipn else ipn) 1), [])

/-- Keyword match helper. -/
def expectKeyword (pat : List Char) (cs : List Char) : Option (List Char) :=
  if pat.isPrefixOf cs then some (cs.drop pat.length) else none

mutual

/-- Recursive-descent value parser over the JSON/Python-literal fragment
the repository's replies use; `lit` switches between strict JSON
(json.loads) and Python-literal (ast.literal_eval) syntax: single-quoted
strings and the capitalised keywords belong to the literal mode. -/
def parseVal (lit : Bool) : Nat → List Char → Option (JVal × List Char)
| 0, _ => none
| fuel + 1, cs0 =>
  let cs := cs0.dropWhile isPySpace
  match cs with
  | [] => none
  | c :: rest =>
    if c == lbraceC then parseObjRest lit fuel rest
    else if c == Char.ofNat 91 then parseArrRest lit fuel rest
    else if c == dquoteC then
      (parseQuotedGo dquoteC (rest.length + 1) [] rest).map
        (fun p => (.jstr p.1, p.2))
    else if lit && (c == squoteC) then
      (parseQuotedGo squoteC (rest.length + 1) [] rest).map
        (fun p => (.jstr p.1, p.2))
    else
      match expectKeyword (if lit then "True".toList else "true".toList) cs with
      | some rem => some (.jbool true, rem)
      | none =>
        match expectKeyword (if lit then "False".toList else "false".toList) cs with
        | some rem => some (.jbool false, rem)
        | none =>
          match expectKeyword (if lit then "None".toList else "null".toList) cs with
          | some rem => some (.jnull, rem)
          | none => parseNumber cs

/-- Object body after the opening brace: empty object or members. -/
def parseObjRest (lit : Bool) : Nat → List Char → Option (JVal × List Char)
| 0, _ => none
| fuel + 1, cs0 =>
  let cs := cs0.dropWhile isPySpace
  match cs with
  | c :: rest =>
    if c == rbraceC then some (.jobj [], rest)
    else
      (parseMembers lit fuel cs).map (fun p => (.jobj p.1, p.2))
  | [] => none

/-- One or more key-value members, comma separated, closed by a brace. -/
def parseMembers (lit : Bool) : Nat → List Char →
    Option (List (String × JVal) × List Char)
| 0, _ => none
| fuel + 1, cs0 =>
  let cs := cs0.dropWhile isPySpace
  match cs with
  | c :: rest =>
    let keyParse :=
      if c == dquoteC then parseQuotedGo dquoteC (rest.length + 1) [] rest
      else if lit && (c == squoteC) then
        parseQuotedGo squoteC (rest.length + 1) [] rest
      else none
    match keyParse with
    | none => none
    | some (k, cs1) =>
      match cs1.dropWhile isPySpace with
      | c2 :: cs2 =>
        if c2 == Char.ofNat 58 then
          match parseVal lit fuel cs2 with
          | none => none
          | some (v, cs3) =>
            match cs3.dropWhile isPySpace with
            | c3 :: cs4 =>
              if c3 == Char.ofNat 44 then
                (parseMembers lit fuel cs4).map
                  (fun p => ((k, v) :: p.1, p.2))
              else if c3 == rbraceC then some ([(k, v)], cs4)
              else none
            | [] => none
        else none
      | [] => none
  | [] => none

/-- Array body after the opening bracket: empty array or items. -/
def parseArrRest (lit : Bool) : Nat → List Char → Option (JVal × List Char)
| 0, _ => none
| fuel + 1, cs0 =>
  let cs := cs0.dropWhile isPySpace
  match cs with
  | c :: rest =>
    if c == Char.ofNat 93 then some (.jarr [], rest)
    else
      (parseItems lit fuel cs).map (fun p => (.jarr p.1, p.2))
  | [] => none

/-- One or more array items, comma separated, closed by a bracket. -/
def parseItems (lit : Bool) : Nat → List Char →
    Option (List JVal × List Char)
| 0, _ => none
| fuel + 1, cs0 =>
  match parseVal lit fuel cs0 with
  | none => none
  | some (v, cs1) =>
    match cs1.dropWhile isPySpace with
    | c :: cs2 =>
      if c == Char.ofNat 44 then
        (parseItems lit fuel cs2).map (fun p => (v :: p.1, p.2))
      else if c == Char.ofNat 93 then some ([v], cs2)
      else none
    | [] => none

end

/-- Full-input parse: a value followed only by whitespace. -/
def parseFull (lit : Bool) (s : String) : Option JVal :=
  match parseVal lit (4 * s.length + 8) s.toList with
  | some (v, rem) => if (rem.dropWhile isPySpace).isEmpty then some v else none
  | none => none

/-- Model of json.loads on the fragment the repository exercises. -/
def myJsonParse (s : String) : Option JVal := parseFull false s

/-- Model of ast.literal_eval on the fragment the repository exercises. -/
def myLitParse (s : String) : Option JVal := parseFull true s

/-- The extractor with its concrete parsers. -/
def extractJ (resp : JVal) : Option JVal :=
  extract_json_from_response myJsonParse myLitParse resp

/-- The directive guard of src/main.py lines 180-184: no directive when
extraction failed, the recovered object is falsy (empty), or the "expr"
key is absent; otherwise the explanation defaults to a fixed string when
the "explain" key is absent, and the expression is taken as-is.  (Both
parsers return mappings for brace spans, so a recovered non-dict value
does not occur.) -/
def askGuard (parsed : Option JVal) : Option (JVal × JVal) :=
  match parsed with
  | some (.jobj kvs) =>
    if kvs.isEmpty then none
    else
      match kvs.lookup "expr" with
      | some e => some ((kvs.lookup "explain").getD (.jstr "Executed successfully."), e)
      | none => none
  | _ => none

/-- Python view of a DataFrame cell after the null normalisation
df.where(pd.notnull(df), None): both None and NaN become None. -/
def cellToPy : CellVal → PyVal
| .null => .noneV
| .nanC => .noneV
| .intC n => .intV n
| .floatC q => .floatV q
| .strC s => .strV s

/-- Python view of a raw DataFrame cell, as df.iloc hands it out before
any null normalisation: None stays None, but NaN is a float value (it
passes an `is not None` test). -/
def cellToPyRaw : CellVal → PyVal
| .null => .noneV
| .nanC => .nanV
| .intC n => .intV n
| .floatC q => .floatV q
| .strC s => .strV s

/-- df.iloc[0, 0]: the first cell of the first row.  Totalised with null
for malformed tables; a 1x1 table always has the cell. -/
def iloc00 (t : Table) : CellVal :=
  (t.rows.headD []).headD .null

/-- head(1000).to_dict(orient="records") with nulls normalised to None
(src/main.py lines 204-205). -/
def tableRecords (t : Table) : List (List (String × PyVal)) :=
  (t.rows.take 1000).map (fun r => t.cols.zip (r.map cellToPy))

/-- Series reset_index + null normalisation + records
(src/main.py lines 212-214): the index becomes an explicit column. -/
def seriesRecords (nm : String) (entries : List (CellVal × CellVal)) :
    List (List (String × PyVal)) :=
  entries.map (fun e => [("index", cellToPy e.1), (nm, cellToPy e.2)])

/-- Round-half-even of the fraction a/b (b positive), the rounding of
CPython's fixed-point float formatting (floats are modelled as exact
rationals, so the fraction is exact). -/
def roundHalfEvenFrac (a b : Int) : Int :=
  let f := a.fdiv b
  let r := a - b * f
  if 2 * r < b then f
  else if b < 2 * r then f + 1
  else if f % 2 = 0 then f else f + 1

/-- Zero left-padding to a fixed width. -/
def padZeros (k : Nat) (s : String) : String :=
  String.mk (List.replicate (k - s.length) (Char.ofNat 48)) ++ s

/-- Python f-string fixed-point formatting with `prec` decimal places,
computed on the rational's numerator and denominator. -/
def formatFixed (prec : Nat) (q : Rat) : String :=
  let n := roundHalfEvenFrac (q.num * ((10 : Int) ^ prec)) (q.den : Int)
  let sign := if q.num < 0 then "-" else ""
  let m := n.natAbs
  sign ++ toString (m / 10 ^ prec) ++ "." ++
    padZeros prec (toString (m % 10 ^ prec))

/-- The small-float rendering of src/main.py line 224:
f-string with 8 places, trailing zeros then a trailing dot stripped. -/
def fmtSmallFloat (q : Rat) : String :=
  let base := (formatFixed 8 q).toList
  let t1 := (base.reverse.dropWhile (fun c => c == Char.ofNat 48)).reverse
  String.mk ((t1.reverse.dropWhile (fun c => c == Char.ofNat 46)).reverse)

/-- str(result_obj) with the float-aware override of src/main.py lines
221-226: floats of magnitude strictly between 0 and 0.01 use the trimmed
8-place form, other floats exactly two places; NaN is a float whose
comparisons are all false, so it takes the two-place branch, where
CPython renders f-strings of nan as "nan"; non-float scalars use their
str() (object renderings approximate, unused by the claims). -/
def scalarText : PyVal → String
| .floatV q =>
    if q.num ≠ 0 ∧ 100 * q.num.natAbs < q.den then fmtSmallFloat q
    else formatFixed 2 q
| .nanV => "nan"
| .intV n => toString n
| .strV s => s
| .noneV => "None"
| .dataframe _ => "DataFrame"
| .seriesV _ _ => "Series"
| .figure => "Figure"
| .pymodule nm => nm
| .pyfunc nm => nm

/-- rstrip(".") on a string. -/
def rstripDots (s : String) : String :=
  String.mk ((s.toList.reverse.dropWhile (fun c => c == Char.ofNat 46)).reverse)

/-- The explanation update of src/main.py line 227:
explanation.strip().rstrip(".") + " " + val_str. -/
def appendScalar (explanation : String) (v : PyVal) : String :=
  rstripDots (String.mk (pyStripL explanation.toList)) ++ " " ++ scalarText v

/-- The four output channels the /ask endpoint assembles
(src/main.py lines 193-235): answer text, table records, series records,
and whether a download artifact was registered (download_id not None). -/
structure Formatted : Type where
  answer : String
  result_table : List (List (String × PyVal))
  result_series : List (List (String × PyVal))
  download : Bool
deriving DecidableEq

/-- The result formatting of src/main.py lines 193-235: a 1x1 DataFrame
collapses to its raw single cell first (is_scalar_df, via iloc before any
null normalisation, so a NaN cell stays a float); a DataFrame becomes
table records plus a download artifact; a Series becomes series records
plus a download artifact; a None result leaves everything untouched; any
other value — NaN included, since it passes `is not None` — is rendered
and appended to the explanation. -/
def formatResult (explanation : String) (robj : Option PyVal) : Formatted :=
  let collapsed : Option PyVal :=
    match robj with
    | some (.dataframe t) =>
      if t.rows.length = 1 ∧ t.cols.length = 1 then some (cellToPyRaw (iloc00 t))
      else some (.dataframe t)
    | r => r
  match collapsed with
  | some (.dataframe t) => ⟨explanation, tableRecords t, [], true⟩
  | some (.seriesV nm entries) => ⟨explanation, [], seriesRecords nm entries, true⟩
  | some .noneV => ⟨explanation, [], [], false⟩
  | some v => ⟨appendScalar explanation v, [], [], false⟩
  | none => ⟨explanation, [], [], false⟩

/-- A small dataset with a numeric amount column, for concrete runs. -/
def amountTable : Table :=
  ⟨[[.floatC 10], [.floatC 20], [.floatC 30]], ["amount"]⟩

/-- A small dataset with a string city column (and one absent cell), for
concrete runs of the fuzzy filter. -/
def cityTable : Table :=
  ⟨[[.strC "Bangalore"], [.strC "Mumbai"], [.null]], ["city"]⟩

/-! Theorems.  Helper lemmas come first, then one theorem (with its
witness or counterexample where required) per claim. -/

/-- A lookup misses when no key of the association list equals the
query. -/
theorem lookup_none_of_no_key (s : String) (l : List (String × PyVal))
    (h : ∀ p ∈ l, p.1 ≠ s) : l.lookup s = none := by
  induction l with
  | nil => rfl
  | cons p rest ih =>
    obtain ⟨k, v⟩ := p
    have hps : s ≠ k := fun he => (h (k, v) (List.mem_cons_self _ _)) he.symm
    have hp : (s == k) = false := beq_eq_false_iff_ne.mpr hps
    have hrest : List.lookup s rest = none :=
      ih (fun q hq => h q (List.mem_cons_of_mem _ hq))
    simp [List.lookup, hp, hrest]

/-- find? distributes over append as an orElse. -/
theorem find?_append_or (p : (String × PyVal) → Bool)
    (l1 l2 : List (String × PyVal)) :
    (l1 ++ l2).find? p = ((l1.find? p).orElse (fun _ => l2.find? p)) := by
  induction l1 with
  | nil => simp
  | cons a t ih =>
    by_cases h : p a
    · simp [List.find?_cons_of_pos _ h, Option.orElse]
    · simp [List.find?_cons_of_neg _ h, ih]

/-- Claim C7: an expression that is valid neither as a single expression
nor as a statement sequence (both eval and exec raise SyntaxError) makes
Computation Mode return the raw expression text itself as a string
result, with no error reported. -/
theorem claim7_syntax_error_returns_text (raw : String) :
    pythonMode raw .synErr .synErr = ⟨some (.strV raw), none, ""⟩ := rfl

/-- Claim C4 (code bug): at the failing input
"sql: SELECT * FROM nonexistent" the engine raises inside con.execute and
the except clause returns without reaching con.close(), so the
per-call DuckDB instance is released on the success path only — not
unconditionally as the claim states. -/
theorem claim4_close_skipped_on_failure :
    isSqlQuery "sql: SELECT * FROM nonexistent" = true
    ∧ sqlBody "sql: SELECT * FROM nonexistent" = "SELECT * FROM nonexistent"
    ∧ ((sqlMode true "SELECT * FROM nonexistent"
          (.error "Catalog Error: Table with name nonexistent does not exist")).2.contains
        ConnEvent.close) = false
    ∧ ((sqlMode true "SELECT COUNT(*) FROM odata"
          (.ok ⟨[[.intC 5]], ["count_star()"]⟩)).2.contains ConnEvent.close) = true := by
  refine ⟨rfl, rfl, rfl, rfl⟩

/-- Claim C2 counterexample: executing the statement "x = 5" introduces
only a non-tabular binding, so a scan restricted to the bindings
introduced during execution (as the claim describes) yields the fixed
marker string — but the code scans the whole environment, in which the
pre-seeded dataset is tabular, and returns the dataset itself. -/
theorem claim2_counterexample :
    (pythonMode "x = 5" .synErr
        (.ok (initialEnv (.dataframe ⟨[[.intC 1]], ["a"]⟩) ++ [("x", .intV 5)]))).result
      = some (.dataframe ⟨[[.intC 1]], ["a"]⟩)
    ∧ scanIntroducedOnly [("x", .intV 5)] = .strV markerString
    ∧ PyVal.dataframe ⟨[[.intC 1]], ["a"]⟩ ≠ .strV markerString := by
  refine ⟨rfl, rfl, by decide⟩

/-- Claim C2 (amended): after statement execution the engine scans the
entire local environment — the six pre-seeded bindings followed by the
bindings the statements introduced — most recently inserted first, and
returns the first tabular, columnar or figure value; since the dataset is
pre-seeded as `df`, the scan falls back to the dataset itself rather than
the marker string when execution introduced no such value.  The
hypothesis says the introduced names are genuinely new, which is what the
Python dict semantics guarantees for the appended segment. -/
theorem claim2_amended_scan_whole_env (df : Table) (raw : String)
    (intro : List (String × PyVal))
    (_hnew : ∀ p ∈ intro, ∀ q ∈ initialEnv (.dataframe df), p.1 ≠ q.1) :
    pythonMode raw .synErr (.ok (initialEnv (.dataframe df) ++ intro))
      = ⟨some (((intro.reverse.find? (fun kv => isDisplayValue kv.2)).map
            Prod.snd).getD (.dataframe df)), none, ""⟩ := by
  have hinit : ((initialEnv (.dataframe df)).reverse.find?
      (fun kv => isDisplayValue kv.2)) = some ("df", .dataframe df) := rfl
  show (match findLastObject (initialEnv (.dataframe df) ++ intro) with
    | some v => (⟨some v, none, ""⟩ : ExecResult)
    | none => ⟨some (.strV markerString), none, ""⟩) = _
  rw [findLastObject, List.reverse_append,
    find?_append_or (fun kv => isDisplayValue kv.2), hinit]
  cases h : intro.reverse.find? (fun kv => isDisplayValue kv.2) with
  | none => simp [Option.orElse]
  | some p => simp [Option.orElse]

/-- Claim C2 witness: a figure introduced by the statements is recovered
as the most recent displayable binding. -/
theorem claim2_witness :
    (∀ p ∈ [(("fig" : String), PyVal.figure)],
      ∀ q ∈ initialEnv (.dataframe ⟨[], []⟩), p.1 ≠ q.1)
    ∧ pythonMode "fig = plt.figure()" .synErr
        (.ok (initialEnv (.dataframe ⟨[], []⟩) ++ [("fig", .figure)]))
      = ⟨some .figure, none, ""⟩ := by
  refine ⟨by decide, ?_⟩
  have h := claim2_amended_scan_whole_env ⟨[], []⟩ "fig = plt.figure()"
    [("fig", .figure)] (by decide)
  simpa using h

/-- Claim C3 counterexample: for amounts 10, 20, 30 the column sum is 60,
but the statement form "x = df[\x27amount\x27].sum()" does not return
that scalar through the binding scan — the scan only recovers
DataFrame/Series/Figure values, skips the scalar binding x, and returns
the whole pre-seeded dataset instead. -/
theorem claim3_counterexample :
    columnSum amountTable "amount" = 60
    ∧ (pythonMode "x = df[\x27amount\x27].sum()" .synErr
        (.ok (initialEnv (.dataframe amountTable) ++
          [("x", .floatV (columnSum amountTable "amount"))]))).result
      = some (.dataframe amountTable)
    ∧ some (PyVal.dataframe amountTable) ≠ some (.floatV 60) := by
  refine ⟨by norm_num [columnSum, amountTable, columnCells, cellNum], rfl, by decide⟩

/-- Claim C3 (amended): the expression form "df[\x27amount\x27].sum()"
returns the column sum as a scalar; the statement form binds the scalar
to x, which the binding scan skips (it only recovers tabular, columnar or
figure values), so the statement form returns the pre-seeded dataset
rather than the scalar. -/
theorem claim3_amended (t : Table) (q : Rat) (stmtO : StmtOutcome) :
    pythonMode "df[\x27amount\x27].sum()"
        (.ok (.floatV (columnSum t "amount"))) stmtO
      = ⟨some (.floatV (columnSum t "amount")), none, ""⟩
    ∧ pythonMode "x = df[\x27amount\x27].sum()" .synErr
        (.ok (initialEnv (.dataframe t) ++ [("x", .floatV q)]))
      = ⟨some (.dataframe t), none, ""⟩ := by
  refine ⟨rfl, rfl⟩

/-- Claim C1 counterexample: the Computation Mode environment does not
expose exactly the two bindings df and fuzzy_filter — pd, np, plt and re
are deliberately bound as well; and because eval/exec receive an empty
globals dict, the interpreter injects its builtins into it, so the
filesystem primitive open and the printing primitive print resolve
instead of failing. -/
theorem claim1_counterexample :
    localEnvKeys ≠ ["df", "fuzzy_filter"]
    ∧ "pd" ∈ localEnvKeys
    ∧ resolveName (.dataframe ⟨[], []⟩) "open" = some (.pyfunc "open")
    ∧ resolveName (.dataframe ⟨[], []⟩) "print" = some (.pyfunc "print")
    ∧ resolveName (.dataframe ⟨[], []⟩) "__import__" = some (.pyfunc "__import__") := by
  refine ⟨by decide, by decide, rfl, rfl, rfl⟩

/-- Claim C1 (amended): the environment exposes exactly the six bindings
df, pd, np, plt, re and fuzzy_filter, plus the interpreter builtins
injected through the empty globals dict; only an expression referencing a
name outside both sets fails, with a NameError captured as a recoverable
error and no result. -/
theorem claim1_amended_name_isolation (t : Table) (s : String)
    (h1 : ∀ p ∈ initialEnv (.dataframe t), p.1 ≠ s)
    (h2 : builtinNames.contains s = false) :
    localEnvKeys = ["df", "pd", "np", "plt", "re", "fuzzy_filter"]
    ∧ resolveName (.dataframe t) s = none
    ∧ pythonMode s (nameRefEval (.dataframe t) s) (nameRefStmt (.dataframe t) s)
      = ⟨none, some (nameErrTrace s), ""⟩ := by
  have hl : (initialEnv (.dataframe t)).lookup s = none :=
    lookup_none_of_no_key s _ h1
  have h2m : s ∉ builtinNames := by simpa using h2
  have hr : resolveName (.dataframe t) s = none := by
    simp [resolveName, hl, h2m]
  refine ⟨rfl, hr, ?_⟩
  simp [pythonMode, nameRefEval, nameRefStmt, hr]

/-- Claim C1 witness: the name subprocess is neither a binding nor a
builtin, so referencing it fails recoverably. -/
theorem claim1_witness :
    localEnvKeys = ["df", "pd", "np", "plt", "re", "fuzzy_filter"]
    ∧ resolveName (.dataframe ⟨[], []⟩) "subprocess" = none
    ∧ pythonMode "subprocess" (nameRefEval (.dataframe ⟨[], []⟩) "subprocess")
        (nameRefStmt (.dataframe ⟨[], []⟩) "subprocess")
      = ⟨none, some (nameErrTrace "subprocess"), ""⟩ :=
  claim1_amended_name_isolation ⟨[], []⟩ "subprocess" (by decide) (by decide)

/-- Claim C9 counterexample: a 1x1 tabular result whose single cell is
absent (None) leaves the explanation untouched — the cell value is not
rendered and appended as the claim states (that rendering would have
produced "Done None"), though the table stays empty and no download is
requested. -/
theorem claim9_counterexample :
    formatResult "Done." (some (.dataframe ⟨[[.null]], ["v"]⟩))
      = ⟨"Done.", [], [], false⟩
    ∧ appendScalar "Done." (cellToPy .null) = "Done None"
    ∧ ("Done." : String) ≠ "Done None" := by
  refine ⟨rfl, rfl, by decide⟩

/-- Claim C9 (amended): a tabular result of exactly one row and one
column is collapsed to its single raw cell: the table output is empty,
no download artifact is requested, and the cell is rendered and appended
to the explanation exactly when it is not the Python object None — a NaN
cell is a float, passes the `is not None` test and is appended as "nan";
only a None cell leaves the explanation unchanged. -/
theorem claim9_amended_one_by_one (e : String) (c : CellVal) (cn : String) :
    formatResult e (some (.dataframe ⟨[[c]], [cn]⟩))
      = ⟨(match c with
          | .null => e
          | c => appendScalar e (cellToPyRaw c)), [], [], false⟩ := by
  cases c <;> rfl

/-- The replacement character class is closed: substituted characters are
always in [0-9a-z_]. -/
theorem subChar_allowed (c : Char) : isAllowedChar (subChar c) = true := by
  unfold subChar
  by_cases h : isAllowedChar c = true
  · rw [if_pos h]; exact h
  · rw [if_neg h]; decide

/-- A character of the class [0-9a-z_] is untouched by stripping,
lowercasing and substitution. -/
theorem allowed_char_props (c : Char) (h : isAllowedChar c = true) :
    isPySpace c = false ∧ charLower c = c ∧ subChar c = c := by
  have hn : (48 ≤ c.toNat ∧ c.toNat ≤ 57) ∨ (97 ≤ c.toNat ∧ c.toNat ≤ 122) ∨
      c.toNat = 95 := by
    simpa [isAllowedChar] using h
  refine ⟨?_, ?_, ?_⟩
  · simp only [isPySpace, decide_eq_false_iff_not]
    omega
  · unfold charLower
    rw [if_neg (by omega : ¬(65 ≤ c.toNat ∧ c.toNat ≤ 90))]
  · unfold subChar
    rw [if_pos h]

/-- A map whose function fixes every element of the list is the
identity. -/
theorem map_fix_id {f : Char → Char} (l : List Char)
    (h : ∀ c ∈ l, f c = c) : l.map f = l := by
  induction l with
  | nil => rfl
  | cons a t ih =>
    simp [h a (by simp), ih (fun c hc => h c (by simp [hc]))]

/-- dropWhile is the identity on a list none of whose elements satisfy
the predicate. -/
theorem dropWhile_eq_self_of_none {p : Char → Bool} (l : List Char)
    (h : ∀ c ∈ l, p c = false) : l.dropWhile p = l := by
  cases l with
  | nil => rfl
  | cons a t => simp [List.dropWhile_cons, h a (by simp)]

/-- Python strip is the identity on a list with no whitespace at all. -/
theorem pyStripL_eq_self (l : List Char)
    (h : ∀ c ∈ l, isPySpace c = false) : pyStripL l = l := by
  unfold pyStripL
  rw [dropWhile_eq_self_of_none l h,
    dropWhile_eq_self_of_none l.reverse (fun c hc => h c (List.mem_reverse.mp hc)),
    List.reverse_reverse]

/-- Claim C10: normalize_col is idempotent — its output consists only of
characters from [0-9a-z_], on which stripping, lowercasing and the
substitution are all the identity. -/
theorem claim10_normalize_idempotent (s : String) :
    normalize_col (normalize_col s) = normalize_col s := by
  unfold normalize_col
  set l := ((pyStripL s.toList).map charLower).map subChar with hl
  have htl : (String.mk l).toList = l := rfl
  rw [htl]
  have hall : ∀ c ∈ l, isAllowedChar c = true := by
    intro c hc
    rw [hl] at hc
    obtain ⟨d, _, rfl⟩ := List.mem_map.mp hc
    exact subChar_allowed d
  rw [pyStripL_eq_self l (fun c hc => (allowed_char_props c (hall c hc)).1),
    map_fix_id l (fun c hc => (allowed_char_props c (hall c hc)).2.1),
    map_fix_id l (fun c hc => (allowed_char_props c (hall c hc)).2.2)]

/-- Claim C5 counterexample: a reply from which no explanation key is
recoverable still yields a directive (with the fixed default
explanation substituted), and a reply whose recovered expression is the
empty string is still treated as actionable — contrary to the claim on
both counts. -/
theorem claim5_counterexample :
    askGuard (extractJ (.jstr "Answer: \x7b\"expr\": \"df.head()\"\x7d"))
      = some (.jstr "Executed successfully.", .jstr "df.head()")
    ∧ askGuard (extractJ (.jstr "\x7b\"explain\": \"hi\", \"expr\": \"\"\x7d"))
      = some (.jstr "hi", .jstr "") := ⟨rfl, rfl⟩

/-- Claim C5 (amended): the parser performs no key validation; the caller
rejects a reply exactly when extraction failed, the recovered mapping is
empty, or the expression key is absent.  A missing explanation key is
replaced by a fixed default and an empty expression string is still
actionable. -/
theorem claim5_amended_actionable_iff (parsed : Option JVal) :
    askGuard parsed ≠ none ↔
      ∃ kvs, parsed = some (.jobj kvs) ∧ kvs ≠ [] ∧
        (kvs.lookup "expr").isSome := by
  cases parsed with
  | none => simp [askGuard]
  | some v =>
    cases v with
    | jnull => simp [askGuard]
    | jbool b => simp [askGuard]
    | jnum q => simp [askGuard]
    | jstr s => simp [askGuard]
    | jarr xs => simp [askGuard]
    | jobj kvs =>
      cases kvs with
      | nil => simp [askGuard]
      | cons a t =>
        constructor
        · intro hne
          cases hlk : (a :: t).lookup "expr" with
          | none =>
            exfalso
            apply hne
            simp [askGuard, hlk]
          | some e =>
            exact ⟨a :: t, rfl, by simp, by simp [hlk]⟩
        · rintro ⟨kvs2, hk, -, hsome⟩
          have h1 : JVal.jobj (a :: t) = JVal.jobj kvs2 := by
            injection hk
          have h2 : a :: t = kvs2 := by
            injection h1
          subst h2
          cases hlk : (a :: t).lookup "expr" with
          | none =>
            rw [hlk] at hsome
            simp at hsome
          | some e => simp [askGuard, hlk]

/-- Claim C6: extraction is total (the outer handler degrades every
exception to none) and returns none exactly when the fallback chain
produces no brace span or both parses of the span fail. -/
theorem claim6_extract_none_iff (jp lp : String → Option JVal) (resp : JVal) :
    extract_json_from_response jp lp resp = none ↔
      (spanOfReply lp resp = none ∨
        ∃ sp, spanOfReply lp resp = some sp ∧ jp sp = none ∧ lp sp = none) := by
  unfold extract_json_from_response extractBodyE spanOfReply
  cases htext : textOfE (prefixFix lp resp) with
  | error e => simp [htext]
  | ok tv =>
    cases hstr : asStrE tv with
    | error e => simp [htext, hstr]
    | ok t =>
      cases hspan : braceSpan (stripFences t) with
      | none => simp [htext, hstr, hspan]
      | some sp =>
        cases hjp : jp ⟨replaceBSQ sp.data⟩ with
        | some v => simp [htext, hstr, hspan, hjp]
        | none =>
          cases hlp : lp ⟨replaceBSQ sp.data⟩ with
          | some v => simp [htext, hstr, hspan, hjp, hlp]
          | none => simp [htext, hstr, hspan, hjp, hlp]

/-- The best pair nlargest returns comes from the candidate list. -/
theorem pickBest_mem (l : List ((Nat × Nat) × String)) (pr : (Nat × Nat) × String)
    (h : pickBest l = some pr) : pr ∈ l := by
  induction l generalizing pr with
  | nil => cases h
  | cons a t ih =>
    unfold pickBest at h
    cases hr : pickBest t with
    | none =>
      have h2 : some a = some pr := by rw [hr] at h; exact h
      injection h2 with h3
      subst h3
      exact List.mem_cons_self _ _
    | some q =>
      have h2 : (if scoreLt a.1 q.1 ∨
            (scoreNum a.1 * scoreDen q.1 = scoreNum q.1 * scoreDen a.1 ∧ a.2 < q.2)
          then some q else some a) = some pr := by rw [hr] at h; exact h
      by_cases hc : scoreLt a.1 q.1 ∨
          (scoreNum a.1 * scoreDen q.1 = scoreNum q.1 * scoreDen a.1 ∧ a.2 < q.2)
      · rw [if_pos hc] at h2
        injection h2 with h3
        subst h3
        exact List.mem_cons_of_mem _ (ih _ hr)
      · rw [if_neg hc] at h2
        injection h2 with h3
        subst h3
        exact List.mem_cons_self _ _

/-- Every retained candidate carries its own match statistics and cleared
the 0.6 cutoff against the search word. -/
theorem mem_closeScored (w : String) (poss : List String)
    (pr : (Nat × Nat) × String) (h : pr ∈ closeScored w poss) :
    pr.1 = (matchTotal pr.2.toList w.toList, pr.2.length + w.length)
    ∧ 3 * scoreDen pr.1 ≤ 5 * scoreNum pr.1 := by
  unfold closeScored at h
  rw [List.mem_filterMap] at h
  obtain ⟨x, _, hfx⟩ := h
  by_cases hc : 3 * scoreDen (matchTotal x.toList w.toList, x.length + w.length)
      ≤ 5 * scoreNum (matchTotal x.toList w.toList, x.length + w.length)
  · rw [if_pos hc] at hfx
    injection hfx with h2
    subst h2
    exact ⟨rfl, hc⟩
  · rw [if_neg hc] at hfx
    cases hfx

/-- A non-empty string has a non-empty character list. -/
theorem toList_ne_nil (s : String) (h : s ≠ "") : s.toList ≠ [] := by
  intro hnil
  apply h
  cases s with
  | mk data =>
    simp [String.toList] at hnil
    subst hnil
    rfl

/-- A non-empty string has positive length. -/
theorem length_ne_zero (s : String) (h : s ≠ "") : s.length ≠ 0 := by
  intro hlen
  apply toList_ne_nil s h
  have : s.toList.length = 0 := hlen
  exact List.length_eq_zero.mp this

/-- The empty sequence shares no matching block with anything. -/
theorem matchTotal_nil (w : List Char) : matchTotal [] w = 0 := by
  have h : (([] : List Char)).length + w.length + 1 = w.length + 1 := by simp
  unfold matchTotal
  rw [h]
  rfl

/-- A close match of a non-empty word is itself non-empty: the empty
candidate scores zero, below the cutoff. -/
theorem getCloseMatch_ne_empty (w : String) (poss : List String) (hw : w ≠ "")
    (m : String) (h : getCloseMatch w poss = some m) : m ≠ "" := by
  intro hm
  subst hm
  unfold getCloseMatch at h
  cases hp : pickBest (closeScored w poss) with
  | none => rw [hp] at h; cases h
  | some p =>
    rw [hp] at h
    simp only [Option.map_some'] at h
    injection h with h2
    obtain ⟨hsc, hcut⟩ := mem_closeScored w poss p (pickBest_mem _ p hp)
    rw [h2] at hsc
    rw [hsc] at hcut
    rw [show ("" : String).toList = [] from rfl, matchTotal_nil,
      show ("" : String).length = 0 from rfl] at hcut
    have hlen : w.length ≠ 0 := length_ne_zero w hw
    unfold scoreDen scoreNum at hcut
    rw [if_neg (by simpa using hlen), if_neg (by simpa using hlen)] at hcut
    omega

/-- The pattern fuzzy_filter filters by is non-empty whenever the search
value is. -/
theorem fuzzyPattern_ne_empty (vals : List String) (value : String)
    (hv : value ≠ "") : fuzzyPattern vals value ≠ "" := by
  unfold fuzzyPattern
  cases hm : getCloseMatch value vals with
  | none => exact hv
  | some m => exact getCloseMatch_ne_empty value vals hv m hm

/-- A pattern of plain characters (no dot, no other metacharacter)
compiles to its literal tokens. -/
theorem reCompile_plain (cs : List Char)
    (h : ∀ c ∈ cs, c ≠ Char.ofNat 46 ∧ reMeta.contains c = false) :
    reCompile cs = some (cs.map ReTok.lit) := by
  induction cs with
  | nil => rfl
  | cons c rest ih =>
    obtain ⟨hdot, hmeta⟩ := h c (List.mem_cons_self _ _)
    have hc : ¬((c == Char.ofNat 46) = true) := by
      rw [beq_eq_false_iff_ne.mpr hdot]
      exact Bool.false_ne_true
    have hm : ¬(reMeta.contains c = true) := by
      rw [hmeta]
      exact Bool.false_ne_true
    have hrest := ih (fun d hd => h d (List.mem_cons_of_mem _ hd))
    show (if c == Char.ofNat 46 then (reCompile rest).map (fun ts => .anyc :: ts)
      else if reMeta.contains c then none
      else (reCompile rest).map (fun ts => .lit c :: ts)) = _
    rw [if_neg hc, if_neg hm, hrest]
    rfl

/-- An all-literal compiled pattern matches a prefix exactly when the
lowered pattern characters are a prefix of the lowered text. -/
theorem reTokMatchAt_lit (pcs : List Char) (hay : List Char) :
    reTokMatchAt (pcs.map ReTok.lit) hay
      = (pcs.map charLower).isPrefixOf (hay.map charLower) := by
  induction pcs generalizing hay with
  | nil => cases hay <;> rfl
  | cons p ps ih =>
    cases hay with
    | nil => rfl
    | cons c cs =>
      show ((charLower p == charLower c) && reTokMatchAt (ps.map ReTok.lit) cs) = _
      rw [ih]
      rfl

/-- An all-literal compiled pattern searches exactly as case-insensitive
substring containment: on metacharacter-free patterns the program's
regex filter and the claim's substring reading coincide. -/
theorem reSearch_lit (pcs : List Char) (hay : List Char) :
    reSearch (pcs.map ReTok.lit) hay
      = hasSubList (hay.map charLower) (pcs.map charLower) := by
  induction hay with
  | nil =>
    show (reTokMatchAt (pcs.map ReTok.lit) [] || false) = _
    rw [reTokMatchAt_lit]
    rfl
  | cons c cs ih =>
    show (reTokMatchAt (pcs.map ReTok.lit) (c :: cs)
        || reSearch (pcs.map ReTok.lit) cs) = _
    rw [reTokMatchAt_lit, ih]
    rfl

/-- A non-empty all-literal pattern never matches inside the empty
string (the fillna('') image of an absent cell). -/
theorem reSearch_lit_nil_false (pcs : List Char) (h : pcs ≠ []) :
    reSearch (pcs.map ReTok.lit) [] = false := by
  cases pcs with
  | nil => exact absurd rfl h
  | cons c cs => rfl

/-- Claim C8 counterexample: pandas str.contains treats the filter
pattern as a regex (the regex=True default), so when the matched value
itself carries regex syntax the filter is not substring containment.
For a column holding "a.c" and "abc" and search value "a.c", the closest
match is "a.c" itself and its dot matches any character: the program
keeps both rows, while the claim's substring reading keeps only the
"a.c" row. -/
theorem claim8_counterexample :
    fuzzy_filter ⟨[[.strC "a.c"], [.strC "abc"]], ["pat"]⟩ "pat" "a.c"
      = .ok ⟨[[.strC "a.c"], [.strC "abc"]], ["pat"]⟩
    ∧ fuzzy_filter_claim ⟨[[.strC "a.c"], [.strC "abc"]], ["pat"]⟩ "pat" "a.c"
      = ⟨[[.strC "a.c"]], ["pat"]⟩
    ∧ Table.mk [[.strC "a.c"], [.strC "abc"]] ["pat"]
        ≠ Table.mk [[.strC "a.c"]] ["pat"] := by
  refine ⟨by rfl, by rfl, by decide⟩

/-- Claim C8 (amended): fuzzy_filter picks its pattern as the claim
describes (distinct non-null stringified values, single difflib close
match at cutoff 0.6, else the raw value), but filters with pandas
str.contains, whose default treats the pattern as a case-insensitive
regex.  When the chosen pattern is free of regex syntax — the situation
of every metacharacter-free dataset — that filter is exactly the
claim's case-insensitive substring containment, with absent/null cells
never matching. -/
theorem claim8_fuzzy_filter_matches_claim (t : Table) (col value : String)
    (hv : value ≠ "") (i : Nat)
    (hidx : t.cols.findIdx? (fun x => x == col) = some i)
    (hplain : ∀ c ∈ (fuzzyPattern
        (dedupGo [] ((t.rows.map (fun r => r.getD i .null)).filterMap cellStrOpt))
        value).toList, c ≠ Char.ofNat 46 ∧ reMeta.contains c = false) :
    fuzzy_filter t col value = .ok (fuzzy_filter_claim t col value) := by
  have hpatne : fuzzyPattern
      (dedupGo [] ((t.rows.map (fun r => r.getD i .null)).filterMap cellStrOpt))
      value ≠ "" := fuzzyPattern_ne_empty _ _ hv
  unfold fuzzy_filter fuzzy_filter_claim
  rw [hidx]
  show (match reCompile (fuzzyPattern
        (dedupGo [] ((t.rows.map (fun r => r.getD i .null)).filterMap cellStrOpt))
        value).toList with
    | none => Except.error ()
    | some toks =>
      Except.ok (⟨t.rows.filter (fun r => cellMatchesRe toks (r.getD i .null)),
        t.cols⟩ : Table)) = _
  rw [reCompile_plain _ hplain]
  have hfil : t.rows.filter (fun r =>
        cellMatchesRe ((fuzzyPattern
            (dedupGo [] ((t.rows.map (fun r => r.getD i .null)).filterMap cellStrOpt))
            value).toList.map ReTok.lit)
          (r.getD i .null))
      = t.rows.filter (fun r =>
          match r.getD i CellVal.null with
          | .strC s =>
            containsCI s
              (fuzzyPattern
                (dedupGo [] ((t.rows.map (fun r => r.getD i .null)).filterMap cellStrOpt))
                value)
          | _ => false) := by
    apply List.filter_congr
    intro r _
    cases hcell : r.getD i CellVal.null with
    | null => exact reSearch_lit_nil_false _ (toList_ne_nil _ hpatne)
    | nanC => exact reSearch_lit_nil_false _ (toList_ne_nil _ hpatne)
    | strC s => exact reSearch_lit _ _
    | intC n => rfl
    | floatC q => rfl
  exact congrArg (fun rs => Except.ok (⟨rs, t.cols⟩ : Table)) hfil

set_option maxRecDepth 40000 in
/-- Claim C8 witness: the spec's own concrete scenario — a city column
with Bangalore, Mumbai and one absent cell queried with the misspelling
Bangalor; the matched pattern Bangalore is metacharacter-free. -/
theorem claim8_witness :
    ("Bangalor" ≠ "")
    ∧ cityTable.cols.findIdx? (fun x => x == "city") = some 0
    ∧ (∀ c ∈ (fuzzyPattern
          (dedupGo [] ((cityTable.rows.map (fun r => r.getD 0 .null)).filterMap cellStrOpt))
          "Bangalor").toList, c ≠ Char.ofNat 46 ∧ reMeta.contains c = false)
    ∧ fuzzy_filter cityTable "city" "Bangalor"
        = .ok (fuzzy_filter_claim cityTable "city" "Bangalor") :=
  ⟨by decide, by rfl, by decide,
    claim8_fuzzy_filter_matches_claim cityTable "city" "Bangalor" (by decide) 0
      (by rfl) (by decide)⟩

/-! Concrete fidelity runs of the model, reproducing the behaviours the
specification quotes as test vectors. -/

set_option maxRecDepth 40000 in
/-- The misspelt city matches only the Bangalore row; the null row never
matches. -/
theorem fuzzy_filter_bangalore_run :
    fuzzy_filter cityTable "city" "Bangalor"
      = .ok ⟨[[.strC "Bangalore"]], ["city"]⟩ := by
  rfl

set_option maxRecDepth 40000 in
/-- A value with no close match falls back to searching for the raw
value and matches nothing. -/
theorem fuzzy_filter_zzzzz_run :
    fuzzy_filter cityTable "city" "Zzzzz" = .ok ⟨[], ["city"]⟩ := by rfl

/-- A fenced JSON reply is extracted through the fence-stripping stage. -/
theorem extract_fenced_run :
    extractJ (.jstr "```json\n\x7b\"explain\": \"x\", \"expr\": \"df.shape[0]\"\x7d\n```")
      = some (.jobj [("explain", .jstr "x"), ("expr", .jstr "df.shape[0]")]) := rfl

/-- A reply with no brace span extracts to none. -/
theorem extract_plain_text_run : extractJ (.jstr "no json here") = none := rfl

/-- The nested Gemini reply shape is navigated, and a single-quoted body
falls back from the strict to the permissive parser. -/
theorem extract_gemini_shape_run :
    extractJ (.jobj [("candidates", .jarr [.jobj [("content", .jobj
        [("parts", .jarr [.jobj [("text",
          .jstr "\x7b\x27explain\x27: \x27e\x27, \x27expr\x27: \x27df.head()\x27\x7d")]])])]])])
      = some (.jobj [("explain", .jstr "e"), ("expr", .jstr "df.head()")]) := rfl

/-- A 1x1 float result is appended as two-decimal text. -/
theorem format_42_run :
    formatResult "The answer is" (some (.dataframe ⟨[[.floatC 42]], ["v"]⟩))
      = ⟨"The answer is 42.00", [], [], false⟩ := rfl

/-- A 1x1 NaN result is a float: it passes the `is not None` test and is
appended as "nan", unlike a None cell. -/
theorem format_nan_run :
    formatResult "Value is" (some (.dataframe ⟨[[.nanC]], ["v"]⟩))
      = ⟨"Value is nan", [], [], false⟩ := rfl

/-- The two numeric-rendering regimes of the scalar formatter, on
0.0000456 and 1234.5. -/
theorem format_float_runs :
    scalarText (.floatV (mkRat 456 10000000)) = "0.0000456"
    ∧ scalarText (.floatV (mkRat 2469 2)) = "1234.50" := ⟨rfl, rfl⟩

/-- Column-label normalisation on a labelled sample. -/
theorem normalize_col_run : normalize_col "  Gross Amt " = "gross_amt" := rfl

end CFMS
